import Mathlib

/- Verification of the video-processing ingestion pipeline: a shallow
embedding of src/main.py and src/postgres_wrapper.py.

External effects (cv2 captures, the YOLO model, ffprobe, the Redis and
PostgreSQL round-trips, the filesystem) are modelled by explicit environment
records that say what each external call reports and which calls raise, so
that every control path of the source is a value of the embedding. -/

/-- Byte content of a file, as produced by the full read in
`open(full_path, 'rb').read()` (src/main.py line 220). -/
abbrev FileBytes := List Nat

/-- The dedup fingerprint, `hashlib.md5(...).hexdigest()` (src/main.py line
220).  The digest algorithm is a library call outside the repository; it is
modelled as an injective digest of the full byte content, matching its role
as a content-addressed identity (practically unique per distinct byte
sequence). -/
def md5 (content : FileBytes) : FileBytes := content

/-- Model of `os.path.basename`: the final path component (everything after
the last slash). -/
def basename (p : String) : String :=
  String.mk (p.toList.reverse.takeWhile (fun c => c != '/')).reverse

/-- Model of `str.lower()` on the file name. -/
def lowerStr (s : String) : String := String.mk (s.toList.map Char.toLower)

/-- Model of `str.endswith(suffix)`. -/
def strEndsWith (s suffix : String) : Bool :=
  suffix.toList.reverse.isPrefixOf s.toList.reverse

/-- Model of `os.path.join` as used in the source (plain relative second
argument). -/
def pathJoin (a b : String) : String := a ++ "/" ++ b

/-- The name part of `os.path.splitext`: everything before the last dot,
where the leading dots of a name never begin an extension. -/
def splitextName (s : String) : String :=
  let cs := s.toList
  let lead := (cs.takeWhile (fun c => c == '.')).length
  let rest := cs.drop lead
  if rest.contains '.' then
    let extLen := (rest.reverse.takeWhile (fun c => c != '.')).length
    String.mk (cs.take (cs.length - extLen - 1))
  else s

/-- The configuration record read from config.json (src/main.py). -/
structure Config where
  input_folder : String
  pose_data_folder : String
  processed_folder : String
  scan_interval_sec : Nat
  model_path : String
  supported_file_formats : List String
  db_table_name : String
deriving DecidableEq

/-- The VideoProcessingResultFields dataclass (src/postgres_wrapper.py lines
13-24).  `frame_rate` is declared with the float default 0.0 in the source
but is only ever overwritten with the formatted two-decimal string; both are
modelled as strings.  `corrupted` is tri-state (None / True / False). -/
structure VideoProcessingResultFields where
  video_filename : String
  duration_seconds : ℚ := 0
  resolution : String := "N/A"
  codec : String := "N/A"
  frame_rate : String := "0.0"
  corrupted : Option Bool := none
  pose_file_path : String := "N/A"
deriving DecidableEq

/-- What the external calls of one extract_metadata invocation report: the
values the cv2 capture returns, the ffprobe outcome, and the point (if any)
at which an unexpected exception interrupts the try block.  `failAt = some k`
means the exception fires after the first `k` of the four metadata field
assignments (frame_rate, duration_seconds, resolution, codec) completed, so
`some k` with `4 ≤ k` is a failure after all assignments (e.g. in
cap.release); `none` means no exception. -/
structure MetaEnv where
  frameCount : Nat
  fps : ℚ
  width : Nat
  height : Nat
  codecProbe : Option String
  failAt : Option Nat
deriving DecidableEq

/-- get_video_codec (src/main.py lines 30-56): the probed codec name, or
"N/A" when the ffprobe invocation fails or reports no stream; its try/except
returns "N/A" on every error, so it never raises. -/
def get_video_codec (probe : Option String) : String :=
  match probe with
  | some c => c
  | none => "N/A"

/-- Two-decimal fixed-point rendering of a rational, modelling the f-string
format `:.2f` used for the frame rate (src/main.py line 73). -/
def formatTwoDec (q : ℚ) : String :=
  let c : Int := round (q * 100)
  let sign := if c < 0 then "-" else ""
  let n := c.natAbs
  sign ++ toString (n / 100) ++ "." ++
    (if n % 100 < 10 then "0" else "") ++ toString (n % 100)

/-- extract_metadata (src/main.py lines 58-92): builds the result record for
the file, assigning frame_rate, duration_seconds, resolution and codec in
source order inside a try block; any exception is caught and the finally
clause returns whatever was populated so far. -/
def extract_metadata (video_path : String) (env : MetaEnv) :
    VideoProcessingResultFields :=
  let m0 : VideoProcessingResultFields := { video_filename := basename video_path }
  let m1 := { m0 with frame_rate := formatTwoDec env.fps }
  let dur : ℚ := if env.fps ≠ 0 then (env.frameCount : ℚ) / env.fps else 0
  let m2 := { m1 with duration_seconds := dur }
  let res := toString env.width ++ " x " ++ toString env.height
  let m3 := { m2 with resolution := res }
  let m4 := { m3 with codec := get_video_codec env.codecProbe }
  match env.failAt with
  | some 0 => m0
  | some 1 => m1
  | some 2 => m2
  | some 3 => m3
  | _ => m4

/-- The number of metadata field assignments that completed before the probe
was interrupted (4 when nothing interrupted it). -/
def metaStepsDone (env : MetaEnv) : Nat :=
  match env.failAt with
  | none => 4
  | some k => min k 4

/-- What the cv2 capture reports during is_corrupted: whether the stream
opened, whether the single frame read succeeded, and whether the decoded
frame was non-empty. -/
structure CorruptEnv where
  opened : Bool
  readSuccess : Bool
  frameNonNull : Bool
deriving DecidableEq

/-- is_corrupted (src/main.py lines 94-115): corrupted unless the stream
opens, one frame reads successfully and the frame is not None. -/
def is_corrupted (env : CorruptEnv) : Bool :=
  if !env.opened then true
  else if !env.readSuccess || !env.frameNonNull then true
  else false

/-- What one pose_detection call observes: how many frames the capture
yields, whether an exception interrupts the frame/inference try block (after
`k` model.predict calls when `loopFailAt = some k`), and whether opening or
writing the sidecar JSON file (in the else clause) raises. -/
structure PoseEnv where
  frames : Nat
  loopFailAt : Option Nat
  writeFails : Bool
deriving DecidableEq

/-- pose_detection (src/main.py lines 117-154).  Returns the outcome visible
to the caller (`Except.error` when an exception escapes the function)
together with the number of model.predict invocations.  The frame/inference
loop runs inside try/except, so a loop failure is caught and the initial
json_path "N/A" is returned; the sidecar write happens in the else clause,
outside the except, so a write failure escapes. -/
def pose_detection (cfg : Config) (video_path : String) (env : PoseEnv) :
    Except Unit String × Nat :=
  let filename := basename video_path
  let name := splitextName filename
  match env.loopFailAt with
  | some k => (Except.ok "N/A", min k env.frames)
  | none =>
    if env.writeFails then (Except.error (), env.frames)
    else (Except.ok (pathJoin cfg.pose_data_folder (name ++ "_pose.json")),
      env.frames)

/-- One row of the result table: the dataclass fields plus the
server-assigned processed_at timestamp (the server clock is a Nat). -/
structure DbRow where
  fields : VideoProcessingResultFields
  processed_at : Nat
deriving DecidableEq

/-- Semantics of the SQL statement executed by db_insert
(src/postgres_wrapper.py lines 81-109): INSERT the row; ON CONFLICT
(video_filename) DO UPDATE overwrites every non-key field with the EXCLUDED
values and sets processed_at = CURRENT_TIMESTAMP.  Modelled from the spec:
the processed_at value of a fresh insert is the server-assigned current
timestamp (the table definition carrying the column default is not among the
repository sources). -/
def upsertRow (now : Nat) (table : List DbRow)
    (row : VideoProcessingResultFields) : List DbRow :=
  if table.any (fun r => r.fields.video_filename == row.video_filename) then
    table.map (fun r =>
      if r.fields.video_filename == row.video_filename then
        { fields := row, processed_at := now }
      else r)
  else table ++ [{ fields := row, processed_at := now }]

/-- PostgresWrapper.db_insert (src/postgres_wrapper.py lines 70-116).
`fail` is true when executing or committing the statement raises.  The
result is the table state visible after the call together with whether an
exception escaped to the caller: the except branch catches every exception,
logs it and rolls the transaction back (table unchanged), then returns
normally — so the escape flag is false on both paths and the returned value
(None in the source) carries no error indication. -/
def db_insert (fail : Bool) (now : Nat) (table : List DbRow)
    (row : VideoProcessingResultFields) : List DbRow × Bool :=
  if fail then (table, false)
  else (upsertRow now table row, false)

/-- move_processed_file (src/main.py lines 156-175): moves the file from the
input directory to the processed directory, keeping its base name; every
exception from the move is caught and logged, leaving both directories
unchanged. -/
def move_processed_file (moveFails : Bool)
    (inputDir : List (String × FileBytes)) (processedDir : List String)
    (file : String) : List (String × FileBytes) × List String :=
  if moveFails then (inputDir, processedDir)
  else (inputDir.filter (fun p => p.1 != file), processedDir ++ [file])

/-- State shared across scan cycles: the dedup store (the set of marked
fingerprints), the result table, the two directories, and the server clock
used for processed_at. -/
structure ScanState where
  redis : List FileBytes
  db : List DbRow
  input : List (String × FileBytes)
  processed : List String
  clock : Nat
deriving DecidableEq

/-- What the external calls observe while the scan loop handles one file:
which calls raise, what the probes report, and whether the database
connection is live (the value of PostgresWrapper.is_connected,
src/postgres_wrapper.py lines 59-68). -/
structure ScanEnv where
  readFails : Bool
  existsFails : Bool
  meta : MetaEnv
  corrupt : CorruptEnv
  pose : PoseEnv
  dbConnected : Bool
  dbFail : Bool
  setFails : Bool
  moveFails : Bool
deriving DecidableEq

/-- Outcome of the try block of the per-file handler (src/main.py lines
216-236): whether an exception was raised (and caught by the per-file
except), the should_process flag, the table state after the block, the
number of model.predict invocations, whether extract_metadata ran, and the
row handed to db_insert (none if db_insert was not reached). -/
structure TryResult where
  raised : Bool
  should_process : Bool
  db : List DbRow
  poseCalls : Nat
  probed : Bool
  inserted : Option VideoProcessingResultFields
deriving DecidableEq

/-- The try block of the per-file handler (src/main.py lines 216-236),
transcribed branch by branch: read and hash the bytes, consult the dedup
store, extract metadata, run the corruption check, run pose detection on
non-corrupted files, and upsert when the connection is live. -/
def tryBlock (cfg : Config) (st : ScanState) (file : String)
    (content : FileBytes) (env : ScanEnv) : TryResult :=
  if env.readFails then ⟨true, true, st.db, 0, false, none⟩
  else if env.existsFails then ⟨true, true, st.db, 0, false, none⟩
  else if md5 content ∈ st.redis then ⟨false, false, st.db, 0, false, none⟩
  else
    let full_path := pathJoin cfg.input_folder file
    let video_metadata := extract_metadata full_path env.meta
    if !(is_corrupted env.corrupt) then
      match pose_detection cfg full_path env.pose with
      | (Except.error _, calls) => ⟨true, true, st.db, calls, true, none⟩
      | (Except.ok p, calls) =>
        let vm := { video_metadata with pose_file_path := p, corrupted := some false }
        if env.dbConnected then
          let res := db_insert env.dbFail st.clock st.db vm
          ⟨res.2, true, res.1, calls, true, some vm⟩
        else ⟨false, true, st.db, calls, true, none⟩
    else
      let vm := { video_metadata with corrupted := some true }
      if env.dbConnected then
        let res := db_insert env.dbFail st.clock st.db vm
        ⟨res.2, true, res.1, 0, true, some vm⟩
      else ⟨false, true, st.db, 0, true, none⟩

/-- Everything observable about the handling of one candidate file by the
scan loop body.  `escaped` is true when an exception propagates out of the
per-file handler — only possible from the r.set call in the else clause —
which terminates the scan loop and the process. -/
structure FileReport where
  state : ScanState
  escaped : Bool
  poseInvocations : Nat
  probed : Bool
  inserted : Option VideoProcessingResultFields
deriving DecidableEq

/-- One iteration of the scan loop body for a candidate file (src/main.py
lines 213-245): the try block; then the else clause (r.set of the
fingerprint, run only when no exception was raised — a failure of r.set
itself escapes the handler); then the finally clause (move_processed_file,
run unconditionally). -/
def processFile (cfg : Config) (st : ScanState) (file : String)
    (content : FileBytes) (env : ScanEnv) : FileReport :=
  let t := tryBlock cfg st file content env
  let escaped := !t.raised && t.should_process && env.setFails
  let redis :=
    if !t.raised && t.should_process && !env.setFails then
      st.redis ++ [md5 content]
    else st.redis
  let moved := move_processed_file env.moveFails st.input st.processed file
  { state := { redis := redis, db := t.db, input := moved.1,
               processed := moved.2, clock := st.clock + 1 },
    escaped := escaped, poseInvocations := t.poseCalls, probed := t.probed,
    inserted := t.inserted }

/-- The extension filter of the scan loop (src/main.py line 213):
file.lower().endswith(supported_formats). -/
def selected (cfg : Config) (file : String) : Bool :=
  cfg.supported_file_formats.any (fun ext => strEndsWith (lowerStr file) ext)

/-- One pass of the scan loop over a directory listing (src/main.py lines
212-245).  Each entry carries a file name, its byte content and the external
behaviour of its handling.  Returns the final state and whether an exception
escaped a per-file handler, terminating the loop before the remaining
entries were handled. -/
def scanOnce (cfg : Config) :
    ScanState → List (String × FileBytes × ScanEnv) → ScanState × Bool
  | st, [] => (st, false)
  | st, (file, content, env) :: rest =>
    if selected cfg file then
      let rep := processFile cfg st file content env
      if rep.escaped then (rep.state, true)
      else scanOnce cfg rep.state rest
    else scanOnce cfg st rest

/-- The required config.json keys (src/main.py lines 27-28). -/
def expected_config_keys : List String :=
  ["input_folder", "pose_data_folder", "processed_folder",
   "scan_interval_sec", "model_path", "supported_file_formats",
   "db_table_name"]

/-- init_config (src/main.py lines 177-188): true iff every required key is
present in the loaded configuration; when false, the main block logs and
exits with status 1 before ever entering the scan loop (lines 192-196). -/
def init_config (presentKeys : List String) : Bool :=
  expected_config_keys.all (fun k => presentKeys.contains k)

/- Concrete instances used by counterexamples and witnesses. -/

/-- A concrete configuration. -/
def cfg0 : Config :=
  { input_folder := "in", pose_data_folder := "pose",
    processed_folder := "done", scan_interval_sec := 5,
    model_path := "yolo11n-pose.pt", supported_file_formats := [".mp4"],
    db_table_name := "video_processing_results" }

/-- Concrete byte content of a test file. -/
def content0 : FileBytes := [1, 2, 3]

/-- A fresh scan state with one file in the input directory. -/
def st0 : ScanState :=
  { redis := [], db := [], input := [("a.mp4", content0)], processed := [],
    clock := 0 }

/-- A fresh scan state with two files in the input directory. -/
def st1 : ScanState :=
  { redis := [], db := [], input := [("a.mp4", content0), ("b.mp4", [7])],
    processed := [], clock := 0 }

/-- A fully healthy metadata probe. -/
def metaEnv0 : MetaEnv :=
  { frameCount := 10, fps := 5, width := 640, height := 480,
    codecProbe := some "h264", failAt := none }

/-- A corruption check that finds the file healthy. -/
def corruptOk : CorruptEnv := { opened := true, readSuccess := true, frameNonNull := true }

/-- A corruption check that fails to open the stream. -/
def corruptBad : CorruptEnv := { opened := false, readSuccess := false, frameNonNull := false }

/-- A fully healthy pose-detection pass. -/
def poseEnv0 : PoseEnv := { frames := 10, loopFailAt := none, writeFails := false }

/-- A per-file environment in which every external call succeeds. -/
def envOk : ScanEnv :=
  { readFails := false, existsFails := false, meta := metaEnv0,
    corrupt := corruptOk, pose := poseEnv0, dbConnected := true,
    dbFail := false, setFails := false, moveFails := false }

/-- Every call succeeds except that the database connection is down
(is_connected = false). -/
def envDbDown : ScanEnv := { envOk with dbConnected := false }

/-- Every call succeeds except the r.set dedup-mark call, which raises. -/
def envSetFail : ScanEnv := { envOk with setFails := true }

/-- Every call succeeds but the corruption check classifies the file as
corrupted. -/
def envCorrupt : ScanEnv := { envOk with corrupt := corruptBad }

/-- A concrete result row. -/
def row0 : VideoProcessingResultFields := { video_filename := "a.mp4" }

/-- A second result row for the same filename with different field values. -/
def row1 : VideoProcessingResultFields :=
  { video_filename := "a.mp4", duration_seconds := 2, resolution := "640 x 480",
    codec := "h264", frame_rate := "5.00", corrupted := some false,
    pose_file_path := "pose/a_pose.json" }

/- Helper lemmas shared by the claim theorems. -/

lemma extract_metadata_filename (video_path : String) (env : MetaEnv) :
    (extract_metadata video_path env).video_filename = basename video_path := by
  rcases env with ⟨fc, fps, w, h, cp, fa⟩
  rcases fa with _ | (_ | (_ | (_ | (_ | k)))) <;> rfl

lemma extract_metadata_pose_path (video_path : String) (env : MetaEnv) :
    (extract_metadata video_path env).pose_file_path = "N/A" := by
  rcases env with ⟨fc, fps, w, h, cp, fa⟩
  rcases fa with _ | (_ | (_ | (_ | (_ | k)))) <;> rfl

lemma extract_metadata_duration (video_path : String) (env : MetaEnv) :
    (extract_metadata video_path env).duration_seconds =
      if 2 ≤ metaStepsDone env ∧ env.fps ≠ 0 then (env.frameCount : ℚ) / env.fps
      else 0 := by
  rcases env with ⟨fc, fps, w, h, cp, fa⟩
  have h4 : ∀ k : Nat, min (k + 4) 4 = 4 := fun k => by omega
  rcases fa with _ | (_ | (_ | (_ | (_ | k)))) <;>
    by_cases hf : fps = 0 <;>
      simp [extract_metadata, metaStepsDone, hf, h4, Nat.min_def]

/-- Claim C8: for every input path and every external behaviour of the probe
(including an unexpected exception at any point), extract_metadata returns a
result record — it never raises past its boundary — whose video_filename is
the basename of the input path; at the earliest failure point the returned
record is exactly the freshly constructed one carrying the fields populated
so far (only the filename, with every other field at its default). -/
theorem C8_metadata_never_raises (video_path : String) (env : MetaEnv) :
    (extract_metadata video_path env).video_filename = basename video_path ∧
    extract_metadata video_path { env with failAt := some 0 } =
      { video_filename := basename video_path } :=
  ⟨extract_metadata_filename video_path env, rfl⟩

/-- Claim C10: for every probed video (the reported frame rate being
non-negative), the recorded duration equals frame_count / frame_rate when
the frame rate is nonzero and the duration assignment was reached, equals 0
when the frame rate is zero or unavailable (the probe failed earlier), and
is in every case a non-negative rational. -/
theorem C10_duration (video_path : String) (env : MetaEnv)
    (hfps : 0 ≤ env.fps) :
    ((extract_metadata video_path env).duration_seconds =
      if 2 ≤ metaStepsDone env ∧ env.fps ≠ 0 then (env.frameCount : ℚ) / env.fps
      else 0) ∧
    0 ≤ (extract_metadata video_path env).duration_seconds := by
  refine ⟨extract_metadata_duration video_path env, ?_⟩
  rw [extract_metadata_duration]
  split
  · exact div_nonneg (Nat.cast_nonneg _) hfps
  · exact le_refl 0

/-- Witness for C10 at a concrete healthy probe: 10 frames at 5 fps give a
duration of 2 seconds. -/
theorem C10_duration_witness :
    (0 : ℚ) ≤ metaEnv0.fps ∧
    (extract_metadata "in/a.mp4" metaEnv0).duration_seconds = 2 := by
  have h := (C10_duration "in/a.mp4" metaEnv0 (by norm_num [metaEnv0])).1
  refine ⟨by norm_num [metaEnv0], ?_⟩
  rw [h]
  norm_num [metaEnv0, metaStepsDone]

/-- Claim C5 counterexample: a failing upsert rolls back (the table is
unchanged) and the process does not crash, but the error is NOT reported to
the caller: db_insert returns normally (escape flag false — the source
returns None after logging), indistinguishable from a call that did
nothing, so the error is silently swallowed, contradicting the claim. -/
theorem C5_counterexample : db_insert true 7 [] row0 = ([], false) := rfl

/-- Claim C5 as amended: for every call to db_insert that encounters an
error, the transaction is rolled back (the store state is unchanged) and
the call returns normally (the process does not crash), but the error is
only logged, never reported to the caller. -/
theorem C5_amended (now : Nat) (table : List DbRow)
    (row : VideoProcessingResultFields) :
    db_insert true now table row = (table, false) := rfl

/-- Claim C9 counterexample: when opening or writing the sidecar JSON raises
(the else clause of pose_detection, outside its try/except), the exception
escapes pose_detection to the caller instead of the function returning the
sidecar path or the "N/A" sentinel. -/
theorem C9_counterexample :
    (pose_detection cfg0 "in/a.mp4"
      { frames := 3, loopFailAt := none, writeFails := true }).1 =
      Except.error () := rfl

/-- Claim C9 as amended: whenever the sidecar write does not raise,
pose_detection never propagates an exception: it returns "N/A" if the
frame-decode/inference loop raised, and otherwise the path of the sidecar
artifact named after the source file's base name with the _pose suffix in
the configured output directory.  (An error of the sidecar serialization
itself, which the claim also covered, escapes to the caller — see the
counterexample.) -/
theorem C9_amended (cfg : Config) (video_path : String) (env : PoseEnv)
    (hw : env.writeFails = false) :
    (pose_detection cfg video_path env).1 =
      Except.ok (match env.loopFailAt with
        | some _ => "N/A"
        | none => pathJoin cfg.pose_data_folder
            (splitextName (basename video_path) ++ "_pose.json")) := by
  rcases hl : env.loopFailAt with _ | k <;>
    simp [pose_detection, hl, hw]

/-- Witness for C9 at a concrete healthy pose pass. -/
theorem C9_amended_witness :
    poseEnv0.writeFails = false ∧
    (pose_detection cfg0 "in/a.mp4" poseEnv0).1 =
      Except.ok "pose/a_pose.json" := by
  refine ⟨rfl, ?_⟩
  rw [C9_amended cfg0 "in/a.mp4" poseEnv0 rfl]
  rfl

lemma processFile_redis (cfg : Config) (st : ScanState) (file : String)
    (content : FileBytes) (env : ScanEnv) :
    (processFile cfg st file content env).state.redis =
      if !(tryBlock cfg st file content env).raised &&
         (tryBlock cfg st file content env).should_process && !env.setFails
      then st.redis ++ [md5 content] else st.redis := rfl

lemma processFile_escaped (cfg : Config) (st : ScanState) (file : String)
    (content : FileBytes) (env : ScanEnv) :
    (processFile cfg st file content env).escaped =
      (!(tryBlock cfg st file content env).raised &&
       (tryBlock cfg st file content env).should_process && env.setFails) := rfl

lemma processFile_db (cfg : Config) (st : ScanState) (file : String)
    (content : FileBytes) (env : ScanEnv) :
    (processFile cfg st file content env).state.db =
      (tryBlock cfg st file content env).db := rfl

lemma processFile_input (cfg : Config) (st : ScanState) (file : String)
    (content : FileBytes) (env : ScanEnv) :
    (processFile cfg st file content env).state.input =
      (move_processed_file env.moveFails st.input st.processed file).1 := rfl

lemma processFile_processed (cfg : Config) (st : ScanState) (file : String)
    (content : FileBytes) (env : ScanEnv) :
    (processFile cfg st file content env).state.processed =
      (move_processed_file env.moveFails st.input st.processed file).2 := rfl

lemma processFile_pose_calls (cfg : Config) (st : ScanState) (file : String)
    (content : FileBytes) (env : ScanEnv) :
    (processFile cfg st file content env).poseInvocations =
      (tryBlock cfg st file content env).poseCalls := rfl

lemma processFile_probed (cfg : Config) (st : ScanState) (file : String)
    (content : FileBytes) (env : ScanEnv) :
    (processFile cfg st file content env).probed =
      (tryBlock cfg st file content env).probed := rfl

lemma processFile_inserted (cfg : Config) (st : ScanState) (file : String)
    (content : FileBytes) (env : ScanEnv) :
    (processFile cfg st file content env).inserted =
      (tryBlock cfg st file content env).inserted := rfl

lemma tryBlock_should_process (cfg : Config) (st : ScanState) (file : String)
    (content : FileBytes) (env : ScanEnv) (hfresh : md5 content ∉ st.redis) :
    (tryBlock cfg st file content env).should_process = true := by
  simp only [tryBlock]
  repeat' split
  all_goals rfl

/-- Claim C2: for every file selected in a scan cycle — whatever the
behaviour of fingerprinting, dedup lookup, metadata extraction, the
corruption check, pose extraction, persistence and the dedup mark, i.e. for
every per-file environment — as long as the relocation itself encounters no
filesystem error, the finally clause moves the file: afterwards it is in
the processed directory and no entry for it remains in the input
directory. -/
theorem C2_always_relocate (cfg : Config) (st : ScanState) (file : String)
    (content : FileBytes) (env : ScanEnv) (hmove : env.moveFails = false) :
    (∀ c : FileBytes,
      (file, c) ∉ (processFile cfg st file content env).state.input) ∧
    file ∈ (processFile cfg st file content env).state.processed := by
  rw [processFile_input, processFile_processed]
  constructor
  · intro c
    simp [move_processed_file, hmove, List.mem_filter]
  · simp [move_processed_file, hmove]

/-- Witness for C2: with every call healthy, the file ends up relocated. -/
theorem C2_always_relocate_witness :
    envOk.moveFails = false ∧
    "a.mp4" ∈ (processFile cfg0 st0 "a.mp4" content0 envOk).state.processed :=
  ⟨rfl, (C2_always_relocate cfg0 st0 "a.mp4" content0 envOk rfl).2⟩

lemma processFile_escaped_of_set_ok (cfg : Config) (st : ScanState)
    (file : String) (content : FileBytes) (env : ScanEnv)
    (hset : env.setFails = false) :
    (processFile cfg st file content env).escaped = false := by
  rw [processFile_escaped, hset, Bool.and_false]

/-- Claim C3 counterexample: when the post-success dedup-mark call r.set
raises (the else clause of the per-file handler, outside the try), the
exception propagates out of the handler, terminating the scan loop, and
the subsequent file of the same listing is never handled: it is neither
relocated nor recorded. -/
theorem C3_counterexample :
    (scanOnce cfg0 st1
      [("a.mp4", content0, envSetFail), ("b.mp4", [7], envOk)]).2 = true ∧
    "b.mp4" ∉ (scanOnce cfg0 st1
      [("a.mp4", content0, envSetFail), ("b.mp4", [7], envOk)]).1.processed := by
  constructor
  · rfl
  · decide

/-- Claim C3 as amended: no error raised inside the guarded portion of a
file's processing (fingerprinting, dedup lookup, metadata extraction,
corruption check, pose extraction, persistence) halts the scan loop — for
every listing in which no dedup-mark (r.set) call fails, the loop runs to
the end of the listing whatever else fails; but an error in the
post-success dedup-mark step does escape and halt the loop (see the
counterexample), in addition to the fatal pre-loop configuration
validation, which accepts a configuration exactly when every required key
is present. -/
theorem C3_amended :
    (∀ (cfg : Config) (st : ScanState)
      (files : List (String × FileBytes × ScanEnv)),
      (∀ e ∈ files, e.2.2.setFails = false) →
      (scanOnce cfg st files).2 = false) ∧
    (∀ presentKeys : List String,
      init_config presentKeys = true ↔
        ∀ k ∈ expected_config_keys, presentKeys.contains k = true) := by
  constructor
  · intro cfg st files
    induction files generalizing st with
    | nil => intro _; rfl
    | cons e rest ih =>
      intro h
      obtain ⟨file, content, env⟩ := e
      have hset : env.setFails = false := h _ (List.mem_cons_self _ _)
      have hrest : ∀ x ∈ rest, x.2.2.setFails = false :=
        fun x hx => h x (List.mem_cons_of_mem _ hx)
      simp only [scanOnce]
      split
      · rw [processFile_escaped_of_set_ok cfg st file content env hset]
        simpa using ih _ hrest
      · exact ih _ hrest
  · intro presentKeys
    simp [init_config, List.all_eq_true]

/-- Witness for C3 as amended at a concrete listing with a healthy and a
database-down environment. -/
theorem C3_amended_witness :
    (scanOnce cfg0 st1
      [("a.mp4", content0, envOk), ("b.mp4", [7], envDbDown)]).2 = false :=
  C3_amended.1 cfg0 st1 [("a.mp4", content0, envOk), ("b.mp4", [7], envDbDown)]
    (by decide)

/-- Claim C1 counterexample: with every call healthy except that the
database connection is down (is_connected false), the handler still marks
the fingerprint in the dedup store and relocates the file, yet the result
store receives no row at all — the fingerprint is marked present although
no result for that byte content was durably recorded, refuting the
if-and-only-if invariant. -/
theorem C1_counterexample :
    ¬ ((md5 content0 ∈
          (processFile cfg0 st0 "a.mp4" content0 envDbDown).state.redis) ↔
        ((∃ r ∈ (processFile cfg0 st0 "a.mp4" content0 envDbDown).state.db,
            r.fields.video_filename = "a.mp4") ∧
         "a.mp4" ∈
          (processFile cfg0 st0 "a.mp4" content0 envDbDown).state.processed)) := by
  decide

/-- Claim C1 as amended: for a file whose fingerprint is not yet marked,
the fingerprint is marked present after the attempt if and only if the
guarded portion of the file's processing raised no unhandled exception and
the dedup-mark call itself succeeded — independently of whether a result
row was recorded (the upsert is skipped entirely when the connection is
down) and independently of whether the relocation succeeded. -/
theorem C1_amended (cfg : Config) (st : ScanState) (file : String)
    (content : FileBytes) (env : ScanEnv)
    (hfresh : md5 content ∉ st.redis) :
    md5 content ∈ (processFile cfg st file content env).state.redis ↔
      ((tryBlock cfg st file content env).raised = false ∧
       env.setFails = false) := by
  rw [processFile_redis]
  have hsp := tryBlock_should_process cfg st file content env hfresh
  cases hr : (tryBlock cfg st file content env).raised <;>
    cases hs : env.setFails <;>
      simp [hr, hs, hsp, hfresh]

/-- Witness for C1 as amended at a healthy environment. -/
theorem C1_amended_witness :
    md5 content0 ∉ st0.redis ∧
    (md5 content0 ∈ (processFile cfg0 st0 "a.mp4" content0 envOk).state.redis ↔
      ((tryBlock cfg0 st0 "a.mp4" content0 envOk).raised = false ∧
       envOk.setFails = false)) :=
  ⟨by decide, C1_amended cfg0 st0 "a.mp4" content0 envOk (by decide)⟩

lemma tryBlock_db_down (cfg : Config) (st : ScanState) (file : String)
    (content : FileBytes) (env : ScanEnv)
    (hdb : env.dbConnected = false)
    (hread : env.readFails = false) (hex : env.existsFails = false)
    (hwrite : env.pose.writeFails = false)
    (hfresh : md5 content ∉ st.redis) :
    (tryBlock cfg st file content env).raised = false ∧
    (tryBlock cfg st file content env).db = st.db ∧
    (tryBlock cfg st file content env).inserted = none := by
  cases hic : is_corrupted env.corrupt <;>
    rcases hl : env.pose.loopFailAt with _ | k <;>
      simp [tryBlock, pose_detection, hread, hex, hfresh, hdb, hic, hl, hwrite]

lemma tryBlock_mem (cfg : Config) (st : ScanState) (file : String)
    (content : FileBytes) (env : ScanEnv)
    (hmem : md5 content ∈ st.redis) :
    (tryBlock cfg st file content env).probed = false ∧
    (tryBlock cfg st file content env).poseCalls = 0 := by
  cases hrf : env.readFails <;> cases hef : env.existsFails <;>
    simp [tryBlock, hrf, hef, hmem]

/-- Claim C4: when the database connection is not live and no exception
occurs while processing a fresh file, the scan loop performs no upsert at
all (the table is untouched and no row is handed to db_insert), yet still
marks the file's fingerprint in the dedup store and relocates the file —
the video ends up with no persisted record; and its bytes are never
reprocessed: a later encounter with the same content (whatever its
environment) is skipped before any processing work, with the metadata
probe never run and pose inference never invoked. -/
theorem C4_db_down_marks_and_skips (cfg : Config) (st : ScanState)
    (file : String) (content : FileBytes) (env : ScanEnv)
    (hdb : env.dbConnected = false)
    (hread : env.readFails = false) (hex : env.existsFails = false)
    (hwrite : env.pose.writeFails = false)
    (hset : env.setFails = false) (hmove : env.moveFails = false)
    (hfresh : md5 content ∉ st.redis) :
    (processFile cfg st file content env).state.db = st.db ∧
    (processFile cfg st file content env).inserted = none ∧
    md5 content ∈ (processFile cfg st file content env).state.redis ∧
    file ∈ (processFile cfg st file content env).state.processed ∧
    (∀ (file2 : String) (env2 : ScanEnv),
      (processFile cfg (processFile cfg st file content env).state file2
          content env2).probed = false ∧
      (processFile cfg (processFile cfg st file content env).state file2
          content env2).poseInvocations = 0) := by
  obtain ⟨hr, hdb', hins⟩ :=
    tryBlock_db_down cfg st file content env hdb hread hex hwrite hfresh
  have hsp := tryBlock_should_process cfg st file content env hfresh
  have hmark : md5 content ∈ (processFile cfg st file content env).state.redis := by
    rw [processFile_redis, hr, hsp, hset]
    simp
  refine ⟨?_, ?_, hmark, ?_, ?_⟩
  · rw [processFile_db, hdb']
  · rw [processFile_inserted, hins]
  · rw [processFile_processed]
    simp [move_processed_file, hmove]
  · intro file2 env2
    obtain ⟨hp, hc⟩ := tryBlock_mem cfg
      (processFile cfg st file content env).state file2 content env2 hmark
    exact ⟨by rw [processFile_probed, hp], by rw [processFile_pose_calls, hc]⟩

/-- Witness for C4 with the database down and everything else healthy. -/
theorem C4_db_down_witness :
    envDbDown.dbConnected = false ∧
    (processFile cfg0 st0 "a.mp4" content0 envDbDown).state.db = st0.db ∧
    md5 content0 ∈ (processFile cfg0 st0 "a.mp4" content0 envDbDown).state.redis := by
  have h := C4_db_down_marks_and_skips cfg0 st0 "a.mp4" content0 envDbDown
    rfl rfl rfl rfl rfl rfl (by decide)
  exact ⟨rfl, h.1, h.2.2.1⟩

lemma mem_upsertRow (now : Nat) (table : List DbRow)
    (row : VideoProcessingResultFields) :
    ({ fields := row, processed_at := now } : DbRow) ∈ upsertRow now table row := by
  unfold upsertRow
  split
  · next h =>
    rw [List.any_eq_true] at h
    obtain ⟨r, hr, hpr⟩ := h
    refine List.mem_map.mpr ⟨r, hr, ?_⟩
    rw [if_pos hpr]
  · exact List.mem_append_right _ (by simp)

lemma tryBlock_corrupted (cfg : Config) (st : ScanState) (file : String)
    (content : FileBytes) (env : ScanEnv)
    (hread : env.readFails = false) (hex : env.existsFails = false)
    (hfresh : md5 content ∉ st.redis)
    (hcor : is_corrupted env.corrupt = true)
    (hdbc : env.dbConnected = true) (hdbf : env.dbFail = false) :
    (tryBlock cfg st file content env).poseCalls = 0 ∧
    (tryBlock cfg st file content env).inserted =
      some { extract_metadata (pathJoin cfg.input_folder file) env.meta with
             corrupted := some true } ∧
    (tryBlock cfg st file content env).db =
      upsertRow st.clock st.db
        { extract_metadata (pathJoin cfg.input_folder file) env.meta with
          corrupted := some true } := by
  simp [tryBlock, db_insert, hread, hex, hfresh, hcor, hdbc, hdbf]

/-- Claim C7: for a fresh file classified as corrupted (with a live
database connection and a successful commit), the pose extraction
capability is invoked zero times, the row handed to db_insert has
corrupted = true and pose_file_path equal to the "N/A" sentinel, and the
persisted table contains a row for the file's basename carrying
corrupted = true and the "N/A" pose path. -/
theorem C7_corrupted_short_circuit (cfg : Config) (st : ScanState)
    (file : String) (content : FileBytes) (env : ScanEnv)
    (hread : env.readFails = false) (hex : env.existsFails = false)
    (hfresh : md5 content ∉ st.redis)
    (hcor : is_corrupted env.corrupt = true)
    (hdbc : env.dbConnected = true) (hdbf : env.dbFail = false) :
    (processFile cfg st file content env).poseInvocations = 0 ∧
    (∃ vm, (processFile cfg st file content env).inserted = some vm ∧
      vm.corrupted = some true ∧ vm.pose_file_path = "N/A") ∧
    (∃ r ∈ (processFile cfg st file content env).state.db,
      r.fields.video_filename = basename (pathJoin cfg.input_folder file) ∧
      r.fields.corrupted = some true ∧ r.fields.pose_file_path = "N/A") := by
  obtain ⟨h1, h2, h3⟩ :=
    tryBlock_corrupted cfg st file content env hread hex hfresh hcor hdbc hdbf
  refine ⟨by rw [processFile_pose_calls, h1], ?_, ?_⟩
  · refine ⟨_, by rw [processFile_inserted, h2], rfl, ?_⟩
    show (extract_metadata (pathJoin cfg.input_folder file) env.meta).pose_file_path = "N/A"
    exact extract_metadata_pose_path _ _
  · have hmem : ({ fields := { extract_metadata (pathJoin cfg.input_folder file) env.meta with
        corrupted := some true }, processed_at := st.clock } : DbRow) ∈
        (processFile cfg st file content env).state.db := by
      rw [processFile_db, h3]
      exact mem_upsertRow st.clock st.db _
    exact ⟨_, hmem, extract_metadata_filename _ _, rfl, extract_metadata_pose_path _ _⟩

/-- Witness for C7 at a concrete corrupted file. -/
theorem C7_corrupted_witness :
    is_corrupted envCorrupt.corrupt = true ∧
    (processFile cfg0 st0 "a.mp4" content0 envCorrupt).poseInvocations = 0 :=
  ⟨rfl, (C7_corrupted_short_circuit cfg0 st0 "a.mp4" content0 envCorrupt
    rfl rfl (by decide) rfl rfl rfl).1⟩

lemma any_name_eq_false (table : List DbRow) (key : String)
    (h : ∀ r ∈ table, r.fields.video_filename ≠ key) :
    table.any (fun r => r.fields.video_filename == key) = false := by
  rw [List.any_eq_false]
  intro r hr
  simpa using h r hr

lemma filter_name_eq_nil (table : List DbRow) (key : String)
    (h : ∀ r ∈ table, r.fields.video_filename ≠ key) :
    table.filter (fun r => r.fields.video_filename == key) = [] := by
  rw [List.filter_eq_nil_iff]
  intro r hr
  simpa using h r hr

lemma db_insert_ok (now : Nat) (table : List DbRow)
    (row : VideoProcessingResultFields) :
    db_insert false now table row = (upsertRow now table row, false) := rfl

lemma upsertRow_no_conflict (now : Nat) (table : List DbRow)
    (row : VideoProcessingResultFields)
    (h : table.any (fun r => r.fields.video_filename == row.video_filename) = false) :
    upsertRow now table row =
      table ++ [{ fields := row, processed_at := now }] := by
  unfold upsertRow
  rw [h]
  simp

lemma upsertRow_conflict (now : Nat) (table : List DbRow)
    (row : VideoProcessingResultFields)
    (h : table.any (fun r => r.fields.video_filename == row.video_filename) = true) :
    upsertRow now table row =
      table.map (fun r =>
        if r.fields.video_filename == row.video_filename then
          { fields := row, processed_at := now }
        else r) := by
  unfold upsertRow
  rw [h]
  simp

/-- Claim C6: starting from a table holding no row for the filename,
upserting a first record and then a second record with the same
video_filename leaves exactly one row for that filename — carrying the
second record's field values and a processed_at refreshed by the second
upsert, strictly later than the first (the server clock having strictly
advanced between the two calls). -/
theorem C6_upsert_overwrite (table : List DbRow)
    (r1 r2 : VideoProcessingResultFields) (t1 t2 : Nat)
    (hname : r1.video_filename = r2.video_filename)
    (hfresh : ∀ r ∈ table, r.fields.video_filename ≠ r2.video_filename)
    (ht : t1 < t2) :
    ((db_insert false t1 table r1).1.filter
        (fun r => r.fields.video_filename == r2.video_filename) =
      [{ fields := r1, processed_at := t1 }]) ∧
    ((db_insert false t2 (db_insert false t1 table r1).1 r2).1.filter
        (fun r => r.fields.video_filename == r2.video_filename) =
      [{ fields := r2, processed_at := t2 }]) ∧
    t1 < t2 := by
  have hfresh1 : ∀ r ∈ table, r.fields.video_filename ≠ r1.video_filename := by
    intro r hr
    rw [hname]
    exact hfresh r hr
  have hany1 := any_name_eq_false table r1.video_filename hfresh1
  have hstep1 : (db_insert false t1 table r1).1 =
      table ++ [{ fields := r1, processed_at := t1 }] := by
    rw [db_insert_ok]
    exact upsertRow_no_conflict t1 table r1 hany1
  have hfilter1 : (db_insert false t1 table r1).1.filter
      (fun r => r.fields.video_filename == r2.video_filename) =
      [{ fields := r1, processed_at := t1 }] := by
    rw [hstep1, List.filter_append, filter_name_eq_nil table _ hfresh,
      List.nil_append]
    simp [hname]
  refine ⟨hfilter1, ?_, ht⟩
  have hany2 : ((db_insert false t1 table r1).1.any
      (fun r => r.fields.video_filename == r2.video_filename)) = true := by
    rw [hstep1, List.any_append]
    simp [hname]
  have hstep2 : (db_insert false t2 (db_insert false t1 table r1).1 r2).1 =
      (db_insert false t1 table r1).1.map (fun r =>
        if r.fields.video_filename == r2.video_filename then
          { fields := r2, processed_at := t2 }
        else r) := by
    rw [db_insert_ok]
    exact upsertRow_conflict t2 _ r2 hany2
  have hmapid : ∀ (l : List DbRow),
      (∀ r ∈ l, r.fields.video_filename ≠ r2.video_filename) →
      l.map (fun r =>
        if r.fields.video_filename == r2.video_filename then
          { fields := r2, processed_at := t2 }
        else r) = l := by
    intro l hl
    induction l with
    | nil => rfl
    | cons a as ih =>
      have ha : a.fields.video_filename ≠ r2.video_filename :=
        hl a (List.mem_cons_self _ _)
      have has : ∀ r ∈ as, r.fields.video_filename ≠ r2.video_filename :=
        fun r hr => hl r (List.mem_cons_of_mem _ hr)
      rw [List.map_cons, if_neg (by simpa using ha), ih has]
  rw [hstep2, hstep1, List.map_append, hmapid table hfresh,
    List.filter_append, filter_name_eq_nil table _ hfresh, List.nil_append]
  simp [hname]

/-- Witness for C6: two concrete upserts for "a.mp4" on the empty table. -/
theorem C6_upsert_overwrite_witness :
    row0.video_filename = row1.video_filename ∧ 1 < 2 ∧
    ((db_insert false 2 (db_insert false 1 [] row0).1 row1).1.filter
        (fun r => r.fields.video_filename == row1.video_filename) =
      [{ fields := row1, processed_at := 2 }]) :=
  ⟨rfl, by decide,
    (C6_upsert_overwrite [] row0 row1 1 2 rfl (by simp) (by decide)).2.1⟩
